import Mathlib

/-
Verification development for the loopdev library (a Rust interface to Linux
loop devices, src/lib.rs). The library is a thin translation layer between
caller-supplied parameters and a handful of ioctl calls; we embed it
shallowly: the kernel and filesystem are an oracle (SysEnv) answering each
system call, and every library operation is a pure function from the oracle
and the trace of system calls issued so far to a result together with the
extended trace. Machine integers are modelled as Nat (u32/u64 values) and
Int (i32 ioctl return values).
-/

namespace Loopdev

/-- Operating-system error as surfaced by io::Error::last_os_error():
the errno captured at the failing call. -/
structure OsError where
  errno : Nat
  deriving Repr, DecidableEq

/-- Outcome of one system call: the raw return value (i32) and the errno
the kernel would leave behind for that call. -/
structure SysResult where
  ret : Int
  errno : Nat
  deriving Repr, DecidableEq

/-- Status record loop_info64, generated by bindgen from linux/loop.h
(struct loop_info64: five u64 fields, four u32 fields, byte arrays
lo_file_name[64], lo_crypt_name[64], lo_encrypt_key[32], and u64 lo_init[2]).
Byte arrays are modelled as lists. -/
structure loop_info64 where
  lo_device : Nat
  lo_inode : Nat
  lo_rdevice : Nat
  lo_offset : Nat
  lo_sizelimit : Nat
  lo_number : Nat
  lo_encrypt_type : Nat
  lo_encrypt_key_size : Nat
  lo_flags : Nat
  lo_file_name : List Nat
  lo_crypt_name : List Nat
  lo_encrypt_key : List Nat
  lo_init : List Nat
  deriving Repr, DecidableEq

/-- Default::default() for the bindgen-generated struct: all fields zeroed. -/
def loop_info64.default : loop_info64 :=
  { lo_device := 0
    lo_inode := 0
    lo_rdevice := 0
    lo_offset := 0
    lo_sizelimit := 0
    lo_number := 0
    lo_encrypt_type := 0
    lo_encrypt_key_size := 0
    lo_flags := 0
    lo_file_name := List.replicate 64 0
    lo_crypt_name := List.replicate 64 0
    lo_encrypt_key := List.replicate 32 0
    lo_init := List.replicate 2 0 }

/-- Modelled from the spec: the bindgen-generated kernel bindings are not
part of the repository sources; the spec fixes them to be bit-exact with
the kernel ABI in linux/loop.h, which defines LO_FLAGS_READ_ONLY = 1. -/
def LO_FLAGS_READ_ONLY : Nat := 1

/-- Modelled from the spec: linux/loop.h defines LO_FLAGS_AUTOCLEAR = 4. -/
def LO_FLAGS_AUTOCLEAR : Nat := 4

/-- Modelled from the spec: linux/loop.h defines LO_FLAGS_PARTSCAN = 8. -/
def LO_FLAGS_PARTSCAN : Nat := 8

/-- Modelled from the spec: linux/loop.h defines LO_FLAGS_DIRECT_IO = 16
(named with a BIT suffix here to keep the identifier well-formed). -/
def LO_FLAGS_DIRECT_IO_BIT : Nat := 16

/-- Value of u32::max_value(). -/
def U32_MAX : Nat := 4294967295

/-- Ioctl requests issued by the library, with the argument each carries:
LOOP_CTL_GET_FREE (no argument), LOOP_SET_FD (backing fd), LOOP_SET_STATUS64
(pointer to a status record, modelled by its value), LOOP_CLR_FD (literal 0),
LOOP_SET_CAPACITY (literal 0), LOOP_SET_DIRECT_IO (0 or 1). -/
inductive IoctlReq where
  | getFree : IoctlReq
  | setFd : Int → IoctlReq
  | setStatus64 : loop_info64 → IoctlReq
  | clrFd : Int → IoctlReq
  | setCapacity : Int → IoctlReq
  | directIoToggle : Int → IoctlReq
  deriving Repr, DecidableEq

/-- Observable system calls: an ioctl, or opening a path read-write. -/
inductive Event where
  | ioctl : IoctlReq → Event
  | openRW : String → Event
  deriving Repr, DecidableEq

/-- The oracle standing for the kernel and filesystem: given the history of
system calls already issued, it answers the next ioctl, the next read-write
open (returning a file descriptor or an error), and readlink requests. -/
structure SysEnv where
  ioctlRes : List Event → IoctlReq → SysResult
  openRes : List Event → String → Except OsError Int
  readLinkRes : String → Except OsError String

/-- Translation of fn ioctl_to_error(ret: i32) -> io::Result(i32):
negative return value turns into the last OS error, otherwise the value
is returned. -/
def ioctl_to_error (r : SysResult) : Except OsError Int :=
  if r.ret < 0 then Except.error { errno := r.errno } else Except.ok r.ret

/-- Path of the loop control device. -/
def LOOP_CONTROL : String := "/dev/loop-control"

/-- Constant LOOP_PREFIX, which is cfg-dependent in the source:
"/dev/loop" unless the target OS is android, "/dev/block/loop" on android.
The cfg choice is modelled by a boolean parameter. -/
def LOOP_PREFIX_STR (android : Bool) : String :=
  if android then "/dev/block/loop" else "/dev/loop"

/-- A LoopDevice wraps one open device file, modelled by its descriptor. -/
structure LoopDevice where
  fd : Int
  deriving Repr, DecidableEq

/-- A LoopControl wraps the open /dev/loop-control file. -/
structure LoopControl where
  fd : Int
  deriving Repr, DecidableEq

/-- Translation of LoopDevice::open: open the device path read-write;
on success the returned LoopDevice wraps the descriptor the open yielded. -/
def LoopDevice.open_dev (env : SysEnv) (tr : List Event) (dev : String) :
    Except OsError LoopDevice × List Event :=
  match env.openRes tr dev with
  | Except.error e => (Except.error e, tr ++ [Event.openRW dev])
  | Except.ok fd => (Except.ok { fd := fd }, tr ++ [Event.openRW dev])

/-- Translation of LoopControl::next_free: issue LOOP_CTL_GET_FREE through
ioctl_to_error, then on success open the path formatted as
LOOP_PREFIX followed by the returned device number. -/
def LoopControl.next_free (env : SysEnv) (tr : List Event) (_lc : LoopControl)
    (android : Bool) : Except OsError LoopDevice × List Event :=
  match ioctl_to_error (env.ioctlRes tr IoctlReq.getFree) with
  | Except.error e => (Except.error e, tr ++ [Event.ioctl IoctlReq.getFree])
  | Except.ok dev_num =>
      LoopDevice.open_dev env (tr ++ [Event.ioctl IoctlReq.getFree])
        (LOOP_PREFIX_STR android ++ toString dev_num)

/-- Translation of LoopDevice::detach: one LOOP_CLR_FD ioctl with argument 0;
a negative return becomes the last OS error, otherwise Ok(()). -/
def LoopDevice.detach (env : SysEnv) (tr : List Event) (_d : LoopDevice) :
    Except OsError Unit × List Event :=
  match ioctl_to_error (env.ioctlRes tr (IoctlReq.clrFd 0)) with
  | Except.error e => (Except.error e, tr ++ [Event.ioctl (IoctlReq.clrFd 0)])
  | Except.ok _ => (Except.ok (), tr ++ [Event.ioctl (IoctlReq.clrFd 0)])

/-- Translation of LoopDevice::set_capacity: one LOOP_SET_CAPACITY ioctl with
argument 0. -/
def LoopDevice.set_capacity (env : SysEnv) (tr : List Event) (_d : LoopDevice) :
    Except OsError Unit × List Event :=
  match ioctl_to_error (env.ioctlRes tr (IoctlReq.setCapacity 0)) with
  | Except.error e => (Except.error e, tr ++ [Event.ioctl (IoctlReq.setCapacity 0)])
  | Except.ok _ => (Except.ok (), tr ++ [Event.ioctl (IoctlReq.setCapacity 0)])

/-- Translation of LoopDevice::set_direct_io(direct_io: bool): one
LOOP_SET_DIRECT_IO ioctl whose argument is 1 when enabling, 0 when
disabling (the source method is named set_direct_io). -/
def LoopDevice.set_direct_io_dev (env : SysEnv) (tr : List Event)
    (_d : LoopDevice) (dio : Bool) : Except OsError Unit × List Event :=
  match ioctl_to_error
      (env.ioctlRes tr (IoctlReq.directIoToggle (if dio then 1 else 0))) with
  | Except.error e =>
      (Except.error e, tr ++ [Event.ioctl (IoctlReq.directIoToggle (if dio then 1 else 0))])
  | Except.ok _ =>
      (Except.ok (), tr ++ [Event.ioctl (IoctlReq.directIoToggle (if dio then 1 else 0))])

/-- Translation of LoopDevice::attach_fd_with_loop_info: first the bind-stage
ioctl LOOP_SET_FD through ioctl_to_error with the try operator (an error
returns immediately); then the status-stage ioctl LOOP_SET_STATUS64; if the
latter fails, detach is called with its result discarded and the original
status-stage error is returned. -/
def LoopDevice.attach_fd_with_loop_info (env : SysEnv) (tr : List Event)
    (d : LoopDevice) (bf : Int) (info : loop_info64) :
    Except OsError Unit × List Event :=
  match ioctl_to_error (env.ioctlRes tr (IoctlReq.setFd bf)) with
  | Except.error e => (Except.error e, tr ++ [Event.ioctl (IoctlReq.setFd bf)])
  | Except.ok _ =>
      match ioctl_to_error
          (env.ioctlRes (tr ++ [Event.ioctl (IoctlReq.setFd bf)])
            (IoctlReq.setStatus64 info)) with
      | Except.error err =>
          (Except.error err,
           (LoopDevice.detach env
              (tr ++ [Event.ioctl (IoctlReq.setFd bf)]
                  ++ [Event.ioctl (IoctlReq.setStatus64 info)]) d).2)
      | Except.ok _ =>
          (Except.ok (),
           tr ++ [Event.ioctl (IoctlReq.setFd bf)]
              ++ [Event.ioctl (IoctlReq.setStatus64 info)])

/-- Translation of LoopDevice::attach_with_loop_info: open the backing file
read-write (propagating an open failure), then delegate to
attach_fd_with_loop_info on the descriptor obtained. -/
def LoopDevice.attach_with_loop_info (env : SysEnv) (tr : List Event)
    (d : LoopDevice) (backing_file : String) (info : loop_info64) :
    Except OsError Unit × List Event :=
  match env.openRes tr backing_file with
  | Except.error e => (Except.error e, tr ++ [Event.openRW backing_file])
  | Except.ok bf =>
      LoopDevice.attach_fd_with_loop_info env (tr ++ [Event.openRW backing_file])
        d bf info

/-- Translation of the deprecated LoopDevice::attach(backing_file, offset):
a status record that is default except lo_offset, passed to
attach_with_loop_info. -/
def LoopDevice.attach (env : SysEnv) (tr : List Event) (d : LoopDevice)
    (backing_file : String) (offset : Nat) : Except OsError Unit × List Event :=
  LoopDevice.attach_with_loop_info env tr d backing_file
    { loop_info64.default with lo_offset := offset }

/-- Translation of LoopDevice::attach_file(backing_file): a default status
record passed to attach_with_loop_info. -/
def LoopDevice.attach_file (env : SysEnv) (tr : List Event) (d : LoopDevice)
    (backing_file : String) : Except OsError Unit × List Event :=
  LoopDevice.attach_with_loop_info env tr d backing_file loop_info64.default

/-- Translation of the deprecated LoopDevice::attach_with_offset: identical
body to the deprecated attach. -/
def LoopDevice.attach_with_offset (env : SysEnv) (tr : List Event)
    (d : LoopDevice) (backing_file : String) (offset : Nat) :
    Except OsError Unit × List Event :=
  LoopDevice.attach_with_loop_info env tr d backing_file
    { loop_info64.default with lo_offset := offset }

/-- Translation of the deprecated LoopDevice::attach_with_sizelimit: default
status record except lo_offset and lo_sizelimit. -/
def LoopDevice.attach_with_sizelimit (env : SysEnv) (tr : List Event)
    (d : LoopDevice) (backing_file : String) (offset : Nat) (size_limit : Nat) :
    Except OsError Unit × List Event :=
  LoopDevice.attach_with_loop_info env tr d backing_file
    { loop_info64.default with lo_offset := offset, lo_sizelimit := size_limit }

/-- Translation of LoopDevice::path: read the symbolic link under
/proc/self/fd for this handle's descriptor; Result is collapsed to an
Option with .ok(), so a failure is an absent value, never an error. -/
def LoopDevice.path (env : SysEnv) (d : LoopDevice) : Option String :=
  (env.readLinkRes ("/proc/self/fd/" ++ toString d.fd)).toOption

/-- Translation of the deprecated LoopDevice::get_path: calls path. -/
def LoopDevice.get_path (env : SysEnv) (d : LoopDevice) : Option String :=
  LoopDevice.path env d

/-- Builder created by LoopDevice::with (named with_options here because
that word is reserved in Lean): device reference, status record, and the
pending direct-I/O flag. -/
structure AttachOptions where
  device : LoopDevice
  info : loop_info64
  direct_io_flag : Bool
  deriving Repr, DecidableEq

/-- Translation of LoopDevice::with: builder with Default::default() status
record and direct_io false. -/
def LoopDevice.with_options (d : LoopDevice) : AttachOptions :=
  { device := d, info := loop_info64.default, direct_io_flag := false }

/-- Translation of AttachOptions::offset: store the offset in lo_offset. -/
def AttachOptions.offset (o : AttachOptions) (offset : Nat) : AttachOptions :=
  { o with info := { o.info with lo_offset := offset } }

/-- Translation of AttachOptions::size_limit: store the limit in
lo_sizelimit. -/
def AttachOptions.size_limit (o : AttachOptions) (size_limit : Nat) : AttachOptions :=
  { o with info := { o.info with lo_sizelimit := size_limit } }

/-- Translation of AttachOptions::read_only: set or clear LO_FLAGS_READ_ONLY
in lo_flags (clearing uses the u32 bitwise complement of the flag). -/
def AttachOptions.read_only (o : AttachOptions) (ro : Bool) : AttachOptions :=
  if ro then
    { o with info := { o.info with lo_flags := o.info.lo_flags ||| LO_FLAGS_READ_ONLY } }
  else
    { o with info :=
        { o.info with lo_flags := o.info.lo_flags &&& (U32_MAX ^^^ LO_FLAGS_READ_ONLY) } }

/-- Translation of AttachOptions::autoclear: set or clear LO_FLAGS_AUTOCLEAR
in lo_flags. -/
def AttachOptions.autoclear (o : AttachOptions) (ac : Bool) : AttachOptions :=
  if ac then
    { o with info := { o.info with lo_flags := o.info.lo_flags ||| LO_FLAGS_AUTOCLEAR } }
  else
    { o with info :=
        { o.info with lo_flags := o.info.lo_flags &&& (U32_MAX ^^^ LO_FLAGS_AUTOCLEAR) } }

/-- Translation of AttachOptions::set_direct_io: record the pending flag. -/
def AttachOptions.set_direct_io_opt (o : AttachOptions) (dio : Bool) : AttachOptions :=
  { o with direct_io_flag := dio }

/-- Translation of AttachOptions::part_scan: set bit 1 <<< 4 of lo_flags, or
clear it by masking with u32::max_value() minus that bit (this is the
literal source expression; note the shift amount). -/
def AttachOptions.part_scan (o : AttachOptions) (enable : Bool) : AttachOptions :=
  if enable then
    { o with info := { o.info with lo_flags := o.info.lo_flags ||| (1 <<< 4) } }
  else
    { o with info :=
        { o.info with lo_flags := o.info.lo_flags &&& (U32_MAX - (1 <<< 4)) } }

/-- Translation of AttachOptions::attach: delegate to attach_with_loop_info
with the accumulated record (the try operator propagates its error), then,
only when the pending direct-I/O flag is set, call set_direct_io and
propagate its error; otherwise Ok(()). -/
def AttachOptions.attach (env : SysEnv) (tr : List Event) (o : AttachOptions)
    (backing_file : String) : Except OsError Unit × List Event :=
  match LoopDevice.attach_with_loop_info env tr o.device backing_file o.info with
  | (Except.error e, tr1) => (Except.error e, tr1)
  | (Except.ok _, tr1) =>
      if o.direct_io_flag then
        match LoopDevice.set_direct_io_dev env tr1 o.device o.direct_io_flag with
        | (Except.error e, tr2) => (Except.error e, tr2)
        | (Except.ok _, tr2) => (Except.ok (), tr2)
      else (Except.ok (), tr1)

/-- Translation of AttachOptions::attach_fd: delegate to
attach_fd_with_loop_info with the accumulated record, then, only when the
pending direct-I/O flag is set, call set_direct_io and propagate its error. -/
def AttachOptions.attach_fd (env : SysEnv) (tr : List Event) (o : AttachOptions)
    (backing_file_fd : Int) : Except OsError Unit × List Event :=
  match LoopDevice.attach_fd_with_loop_info env tr o.device backing_file_fd o.info with
  | (Except.error e, tr1) => (Except.error e, tr1)
  | (Except.ok _, tr1) =>
      if o.direct_io_flag then
        match LoopDevice.set_direct_io_dev env tr1 o.device o.direct_io_flag with
        | (Except.error e, tr2) => (Except.error e, tr2)
        | (Except.ok _, tr2) => (Except.ok (), tr2)
      else (Except.ok (), tr1)

/-- Concrete oracle for exercising the failed-status attach path: the bind
ioctl succeeds, the status ioctl fails with errno 22, and the unwind detach
itself fails with errno 16. -/
def env_c1 : SysEnv :=
  { ioctlRes := fun _ req =>
      match req with
      | IoctlReq.setFd _ => { ret := 0, errno := 0 }
      | IoctlReq.setStatus64 _ => { ret := -1, errno := 22 }
      | IoctlReq.clrFd _ => { ret := -1, errno := 16 }
      | _ => { ret := 0, errno := 0 }
    openRes := fun _ _ => Except.ok 7
    readLinkRes := fun _ => Except.error { errno := 2 } }

/-- Concrete oracle where LOOP_CTL_GET_FREE returns index 3 and every open
succeeds with descriptor 9. -/
def env_c2 : SysEnv :=
  { ioctlRes := fun _ req =>
      match req with
      | IoctlReq.getFree => { ret := 3, errno := 0 }
      | _ => { ret := 0, errno := 0 }
    openRes := fun _ _ => Except.ok 9
    readLinkRes := fun _ => Except.error { errno := 2 } }

/-- Concrete oracle where LOOP_CTL_GET_FREE fails with errno 28. -/
def env_c2_fail : SysEnv :=
  { ioctlRes := fun _ req =>
      match req with
      | IoctlReq.getFree => { ret := -1, errno := 28 }
      | _ => { ret := 0, errno := 0 }
    openRes := fun _ _ => Except.ok 9
    readLinkRes := fun _ => Except.error { errno := 2 } }

/-- Concrete oracle where the bind-stage ioctl LOOP_SET_FD fails with
errno 13 and everything else succeeds. -/
def env_c5 : SysEnv :=
  { ioctlRes := fun _ req =>
      match req with
      | IoctlReq.setFd _ => { ret := -1, errno := 13 }
      | _ => { ret := 0, errno := 0 }
    openRes := fun _ _ => Except.ok 7
    readLinkRes := fun _ => Except.error { errno := 2 } }

/-- Concrete oracle where both attach ioctls succeed and the direct-I/O
toggle fails with errno 95. -/
def env_c6 : SysEnv :=
  { ioctlRes := fun _ req =>
      match req with
      | IoctlReq.directIoToggle _ => { ret := -1, errno := 95 }
      | _ => { ret := 0, errno := 0 }
    openRes := fun _ _ => Except.ok 7
    readLinkRes := fun _ => Except.error { errno := 2 } }

/-- Concrete oracle whose readlink answers only for descriptor 7. -/
def env_c8 : SysEnv :=
  { ioctlRes := fun _ _ => { ret := 0, errno := 0 }
    openRes := fun _ _ => Except.ok 7
    readLinkRes := fun s =>
      if s = "/proc/self/fd/7" then Except.ok "/dev/loop0"
      else Except.error { errno := 2 } }

/- Helper lemmas shared by several developments below. -/

/-- Single-ioctl shape of detach: one LOOP_CLR_FD call with argument 0,
error exactly when the return value is negative. -/
theorem detach_eq (env : SysEnv) (tr : List Event) (d : LoopDevice) :
    LoopDevice.detach env tr d =
      ((if (env.ioctlRes tr (IoctlReq.clrFd 0)).ret < 0 then
          Except.error { errno := (env.ioctlRes tr (IoctlReq.clrFd 0)).errno }
        else Except.ok ()),
       tr ++ [Event.ioctl (IoctlReq.clrFd 0)]) := by
  by_cases h : (env.ioctlRes tr (IoctlReq.clrFd 0)).ret < 0 <;>
    simp [LoopDevice.detach, ioctl_to_error, h]

/-- Single-ioctl shape of set_capacity. -/
theorem set_capacity_eq (env : SysEnv) (tr : List Event) (d : LoopDevice) :
    LoopDevice.set_capacity env tr d =
      ((if (env.ioctlRes tr (IoctlReq.setCapacity 0)).ret < 0 then
          Except.error { errno := (env.ioctlRes tr (IoctlReq.setCapacity 0)).errno }
        else Except.ok ()),
       tr ++ [Event.ioctl (IoctlReq.setCapacity 0)]) := by
  by_cases h : (env.ioctlRes tr (IoctlReq.setCapacity 0)).ret < 0 <;>
    simp [LoopDevice.set_capacity, ioctl_to_error, h]

/-- Single-ioctl shape of set_direct_io: argument 1 when enabling, 0 when
disabling. -/
theorem set_direct_io_dev_eq (env : SysEnv) (tr : List Event) (d : LoopDevice)
    (dio : Bool) :
    LoopDevice.set_direct_io_dev env tr d dio =
      ((if (env.ioctlRes tr (IoctlReq.directIoToggle (if dio then 1 else 0))).ret < 0 then
          Except.error
            { errno := (env.ioctlRes tr (IoctlReq.directIoToggle (if dio then 1 else 0))).errno }
        else Except.ok ()),
       tr ++ [Event.ioctl (IoctlReq.directIoToggle (if dio then 1 else 0))]) := by
  by_cases h :
      (env.ioctlRes tr (IoctlReq.directIoToggle (if dio then 1 else 0))).ret < 0 <;>
    simp [LoopDevice.set_direct_io_dev, ioctl_to_error, h]

/-- The trace side of detach is one appended LOOP_CLR_FD event whatever the
kernel answers. -/
theorem detach_trace (env : SysEnv) (tr : List Event) (d : LoopDevice) :
    (LoopDevice.detach env tr d).2 = tr ++ [Event.ioctl (IoctlReq.clrFd 0)] := by
  rw [detach_eq]

/-- C3 as stated fails on the code: part_scan(true) on a fresh builder sets
lo_flags to bit 4 (value 16, which linux/loop.h names LO_FLAGS_DIRECT_IO),
and the LO_FLAGS_PARTSCAN bit (value 8) remains clear. -/
theorem c3_part_scan_sets_bit_four (d : LoopDevice) :
    ((LoopDevice.with_options d).part_scan true).info.lo_flags = LO_FLAGS_DIRECT_IO_BIT
    ∧ LO_FLAGS_DIRECT_IO_BIT ≠ LO_FLAGS_PARTSCAN
    ∧ ((LoopDevice.with_options d).part_scan true).info.lo_flags &&& LO_FLAGS_PARTSCAN = 0 := by
  refine ⟨?_, by decide, ?_⟩
  · simp [LoopDevice.with_options, AttachOptions.part_scan, loop_info64.default,
      LO_FLAGS_DIRECT_IO_BIT]
  · simp [LoopDevice.with_options, AttachOptions.part_scan, loop_info64.default]
    decide

/-- C4: with() seeds an all-zero status record and a cleared direct-I/O
flag, and offset(o) together with size_limit(s), in either order, yields
exactly lo_offset = o and lo_sizelimit = s with every other field still at
its zero default. -/
theorem c4_with_options_zero_then_offset_size (d : LoopDevice) (o s : Nat) :
    (LoopDevice.with_options d).info = loop_info64.default
    ∧ (LoopDevice.with_options d).direct_io_flag = false
    ∧ (((LoopDevice.with_options d).offset o).size_limit s).info
        = { loop_info64.default with lo_offset := o, lo_sizelimit := s }
    ∧ (((LoopDevice.with_options d).size_limit s).offset o).info
        = { loop_info64.default with lo_offset := o, lo_sizelimit := s } :=
  ⟨rfl, rfl, rfl, rfl⟩

/-- C7: detach, set_capacity, and set_direct_io each issue exactly one
ioctl (LOOP_CLR_FD argument 0, LOOP_SET_CAPACITY argument 0, and
LOOP_SET_DIRECT_IO argument 1/0), fail with the last OS error exactly when
the return value is negative, and succeed with Ok(()) otherwise. -/
theorem c7_single_ioctl_operations (env : SysEnv) (tr : List Event)
    (d : LoopDevice) (b : Bool) :
    LoopDevice.detach env tr d =
      ((if (env.ioctlRes tr (IoctlReq.clrFd 0)).ret < 0 then
          Except.error { errno := (env.ioctlRes tr (IoctlReq.clrFd 0)).errno }
        else Except.ok ()),
       tr ++ [Event.ioctl (IoctlReq.clrFd 0)])
    ∧ LoopDevice.set_capacity env tr d =
      ((if (env.ioctlRes tr (IoctlReq.setCapacity 0)).ret < 0 then
          Except.error { errno := (env.ioctlRes tr (IoctlReq.setCapacity 0)).errno }
        else Except.ok ()),
       tr ++ [Event.ioctl (IoctlReq.setCapacity 0)])
    ∧ LoopDevice.set_direct_io_dev env tr d b =
      ((if (env.ioctlRes tr (IoctlReq.directIoToggle (if b then 1 else 0))).ret < 0 then
          Except.error
            { errno := (env.ioctlRes tr (IoctlReq.directIoToggle (if b then 1 else 0))).errno }
        else Except.ok ()),
       tr ++ [Event.ioctl (IoctlReq.directIoToggle (if b then 1 else 0))]) :=
  ⟨detach_eq env tr d, set_capacity_eq env tr d, set_direct_io_dev_eq env tr d b⟩

/-- C8: path() resolves the /proc/self/fd symlink of the handle's
descriptor, giving the link target on success and an absent value, never
an error, when the readlink fails. -/
theorem c8_path_is_advisory (env : SysEnv) (d : LoopDevice) :
    (∀ p, env.readLinkRes ("/proc/self/fd/" ++ toString d.fd) = Except.ok p →
        LoopDevice.path env d = some p)
    ∧ (∀ e, env.readLinkRes ("/proc/self/fd/" ++ toString d.fd) = Except.error e →
        LoopDevice.path env d = none) := by
  constructor <;> intro x h <;> simp [LoopDevice.path, h, Except.toOption]

/-- Witness for C8: with a concrete environment resolving descriptor 7 to
/dev/loop0, path returns that target, and on an unresolvable descriptor it
returns none. -/
theorem c8_path_is_advisory_witness :
    LoopDevice.path env_c8 { fd := 7 } = some "/dev/loop0"
    ∧ LoopDevice.path env_c8 { fd := 3 } = none :=
  ⟨(c8_path_is_advisory env_c8 { fd := 7 }).1 "/dev/loop0" (by rfl),
   (c8_path_is_advisory env_c8 { fd := 3 }).2 { errno := 2 } (by rfl)⟩

/-- C9: the deprecated entry points coincide with their replacements:
attach and attach_with_offset are the same attach with a status record
whose only nonzero field is lo_offset, attach_file is attach with offset
0, and get_path is path. -/
theorem c9_deprecated_equal_replacements (env : SysEnv) (tr : List Event)
    (d : LoopDevice) (p : String) (o : Nat) :
    LoopDevice.attach env tr d p o = LoopDevice.attach_with_offset env tr d p o
    ∧ LoopDevice.attach env tr d p o =
        LoopDevice.attach_with_loop_info env tr d p
          { loop_info64.default with lo_offset := o }
    ∧ LoopDevice.attach_file env tr d p = LoopDevice.attach env tr d p 0
    ∧ LoopDevice.get_path env d = LoopDevice.path env d :=
  ⟨rfl, rfl, rfl, rfl⟩

/-- C1: when the bind-stage ioctl succeeds and the status-stage ioctl
fails, attach_fd_with_loop_info attempts detach (a LOOP_CLR_FD call is
issued after the two attach ioctls) and returns the original status-stage
error whatever the detach outcome; attach_with_loop_info reduces to the
same routine once the backing file is open. -/
theorem c1_status_failure_unwinds_with_original_error (env : SysEnv)
    (tr : List Event) (d : LoopDevice) (bf : Int) (info : loop_info64)
    (p : String) (fd : Int) :
    (0 ≤ (env.ioctlRes tr (IoctlReq.setFd bf)).ret →
     (env.ioctlRes (tr ++ [Event.ioctl (IoctlReq.setFd bf)])
        (IoctlReq.setStatus64 info)).ret < 0 →
     LoopDevice.attach_fd_with_loop_info env tr d bf info =
       (Except.error
          { errno := (env.ioctlRes (tr ++ [Event.ioctl (IoctlReq.setFd bf)])
              (IoctlReq.setStatus64 info)).errno },
        tr ++ [Event.ioctl (IoctlReq.setFd bf)]
           ++ [Event.ioctl (IoctlReq.setStatus64 info)]
           ++ [Event.ioctl (IoctlReq.clrFd 0)]))
    ∧ (env.openRes tr p = Except.ok fd →
       LoopDevice.attach_with_loop_info env tr d p info =
         LoopDevice.attach_fd_with_loop_info env (tr ++ [Event.openRW p]) d fd info) := by
  constructor
  · intro h1 h2
    simp [LoopDevice.attach_fd_with_loop_info, ioctl_to_error, not_lt.mpr h1, h2,
      detach_trace]
  · intro h
    simp [LoopDevice.attach_with_loop_info, h]

/-- Witness for C1: with a concrete oracle where the bind succeeds, the
status ioctl fails with errno 22, and the unwind detach itself fails with
errno 16, the attach returns errno 22 and the trace shows the detach
attempt. -/
theorem c1_status_failure_unwinds_with_original_error_witness :
    LoopDevice.attach_fd_with_loop_info env_c1 [] { fd := 3 } 7 loop_info64.default =
      (Except.error { errno := 22 },
       [Event.ioctl (IoctlReq.setFd 7),
        Event.ioctl (IoctlReq.setStatus64 loop_info64.default),
        Event.ioctl (IoctlReq.clrFd 0)])
    ∧ LoopDevice.attach_with_loop_info env_c1 [] { fd := 3 } "img" loop_info64.default =
        LoopDevice.attach_fd_with_loop_info env_c1 [Event.openRW "img"]
          { fd := 3 } 7 loop_info64.default :=
  ⟨(c1_status_failure_unwinds_with_original_error env_c1 [] { fd := 3 } 7
      loop_info64.default "img" 7).1 (by decide) (by decide),
   (c1_status_failure_unwinds_with_original_error env_c1 [] { fd := 3 } 7
      loop_info64.default "img" 7).2 (by rfl)⟩

/-- C2: next_free issues LOOP_CTL_GET_FREE; a negative return yields the
last OS error with no open attempted, and a non-negative index n leads to
opening the path LOOP_PREFIX followed by the decimal rendering of n, whose
successful open returns the LoopDevice wrapping the opened descriptor; the
prefix is /dev/loop off android and /dev/block/loop on android. -/
theorem c2_next_free_formats_and_opens (env : SysEnv) (tr : List Event)
    (lc : LoopControl) (android : Bool) (p : String) (fd : Int) :
    ((env.ioctlRes tr IoctlReq.getFree).ret < 0 →
     LoopControl.next_free env tr lc android =
       (Except.error { errno := (env.ioctlRes tr IoctlReq.getFree).errno },
        tr ++ [Event.ioctl IoctlReq.getFree]))
    ∧ (0 ≤ (env.ioctlRes tr IoctlReq.getFree).ret →
       LoopControl.next_free env tr lc android =
         LoopDevice.open_dev env (tr ++ [Event.ioctl IoctlReq.getFree])
           (LOOP_PREFIX_STR android ++ toString (env.ioctlRes tr IoctlReq.getFree).ret))
    ∧ (env.openRes (tr ++ [Event.ioctl IoctlReq.getFree]) p = Except.ok fd →
       LoopDevice.open_dev env (tr ++ [Event.ioctl IoctlReq.getFree]) p =
         (Except.ok { fd := fd },
          tr ++ [Event.ioctl IoctlReq.getFree] ++ [Event.openRW p]))
    ∧ LOOP_PREFIX_STR false = "/dev/loop"
    ∧ LOOP_PREFIX_STR true = "/dev/block/loop" := by
  refine ⟨?_, ?_, ?_, rfl, rfl⟩
  · intro h
    simp [LoopControl.next_free, ioctl_to_error, h]
  · intro h
    simp [LoopControl.next_free, ioctl_to_error, not_lt.mpr h]
  · intro h
    simp [LoopDevice.open_dev, h]

/-- Witness for C2: a concrete oracle returning free index 3 makes
next_free open exactly /dev/loop3 and return the device wrapping the
descriptor 9 that open produced; an oracle failing with errno 28 makes it
return that error with nothing opened. -/
theorem c2_next_free_formats_and_opens_witness :
    LoopControl.next_free env_c2 [] { fd := 0 } false =
      (Except.ok { fd := 9 },
       [Event.ioctl IoctlReq.getFree, Event.openRW "/dev/loop3"])
    ∧ LoopControl.next_free env_c2_fail [] { fd := 0 } false =
      (Except.error { errno := 28 }, [Event.ioctl IoctlReq.getFree]) :=
  ⟨((c2_next_free_formats_and_opens env_c2 [] { fd := 0 } false "/dev/loop3" 9).2.1
      (by decide)).trans
    ((c2_next_free_formats_and_opens env_c2 [] { fd := 0 } false "/dev/loop3" 9).2.2.1
      (by rfl)),
   (c2_next_free_formats_and_opens env_c2_fail [] { fd := 0 } false "/dev/loop3" 9).1
      (by decide)⟩

/-- C5: when the bind-stage ioctl LOOP_SET_FD fails, the error is returned
at once: the only system call issued is the failed bind itself (no status
ioctl, no detach); the same holds for the path-based attach after its
backing-file open. -/
theorem c5_bind_failure_is_atomic (env : SysEnv) (tr : List Event)
    (d : LoopDevice) (bf : Int) (info : loop_info64) (p : String) (fd : Int) :
    ((env.ioctlRes tr (IoctlReq.setFd bf)).ret < 0 →
     LoopDevice.attach_fd_with_loop_info env tr d bf info =
       (Except.error { errno := (env.ioctlRes tr (IoctlReq.setFd bf)).errno },
        tr ++ [Event.ioctl (IoctlReq.setFd bf)]))
    ∧ (env.openRes tr p = Except.ok fd →
       (env.ioctlRes (tr ++ [Event.openRW p]) (IoctlReq.setFd fd)).ret < 0 →
       LoopDevice.attach_with_loop_info env tr d p info =
         (Except.error
            { errno := (env.ioctlRes (tr ++ [Event.openRW p]) (IoctlReq.setFd fd)).errno },
          tr ++ [Event.openRW p] ++ [Event.ioctl (IoctlReq.setFd fd)])) := by
  constructor
  · intro h
    simp [LoopDevice.attach_fd_with_loop_info, ioctl_to_error, h]
  · intro h1 h2
    simp [LoopDevice.attach_with_loop_info, h1, LoopDevice.attach_fd_with_loop_info,
      ioctl_to_error, h2]

/-- Witness for C5: with a concrete oracle failing LOOP_SET_FD with errno
13, both attach forms stop after the failed bind and surface errno 13. -/
theorem c5_bind_failure_is_atomic_witness :
    LoopDevice.attach_fd_with_loop_info env_c5 [] { fd := 3 } 7 loop_info64.default =
      (Except.error { errno := 13 }, [Event.ioctl (IoctlReq.setFd 7)])
    ∧ LoopDevice.attach_with_loop_info env_c5 [] { fd := 3 } "img" loop_info64.default =
      (Except.error { errno := 13 },
       [Event.openRW "img", Event.ioctl (IoctlReq.setFd 7)]) :=
  ⟨(c5_bind_failure_is_atomic env_c5 [] { fd := 3 } 7 loop_info64.default "img" 7).1
      (by decide),
   (c5_bind_failure_is_atomic env_c5 [] { fd := 3 } 7 loop_info64.default "img" 7).2
      (by rfl) (by decide)⟩

/-- C6: the two terminal builder operations coincide once the backing file
is open, and after a successful two-ioctl attach sequence the direct-I/O
toggle ioctl (argument 1) is issued exactly when the pending flag is set,
its failure surfacing as the returned error. -/
theorem c6_terminal_operations_delegate (env : SysEnv) (tr : List Event)
    (o : AttachOptions) (p : String) (fd : Int) (tr2 : List Event) :
    (env.openRes tr p = Except.ok fd →
     AttachOptions.attach env tr o p =
       AttachOptions.attach_fd env (tr ++ [Event.openRW p]) o fd)
    ∧ (LoopDevice.attach_fd_with_loop_info env tr o.device fd o.info =
        (Except.ok (), tr2) →
       AttachOptions.attach_fd env tr o fd =
         (if o.direct_io_flag then
            ((if (env.ioctlRes tr2 (IoctlReq.directIoToggle 1)).ret < 0 then
                Except.error
                  { errno := (env.ioctlRes tr2 (IoctlReq.directIoToggle 1)).errno }
              else Except.ok ()),
             tr2 ++ [Event.ioctl (IoctlReq.directIoToggle 1)])
          else (Except.ok (), tr2))) := by
  constructor
  · intro h
    simp [AttachOptions.attach, AttachOptions.attach_fd,
      LoopDevice.attach_with_loop_info, h]
  · intro h
    by_cases hd : o.direct_io_flag
    · by_cases hc : (env.ioctlRes tr2 (IoctlReq.directIoToggle 1)).ret < 0 <;>
        simp [AttachOptions.attach_fd, h, hd, set_direct_io_dev_eq, hc]
    · simp [AttachOptions.attach_fd, h, hd]

/-- Witness for C6: with a concrete oracle where both attach ioctls succeed
and the direct-I/O toggle fails with errno 95, a builder with the flag set
surfaces errno 95 after issuing the toggle, and the path form delegates to
the fd form. -/
theorem c6_terminal_operations_delegate_witness :
    AttachOptions.attach env_c6 []
        ((LoopDevice.with_options { fd := 3 }).set_direct_io_opt true) "img" =
      AttachOptions.attach_fd env_c6 [Event.openRW "img"]
        ((LoopDevice.with_options { fd := 3 }).set_direct_io_opt true) 7
    ∧ AttachOptions.attach_fd env_c6 []
        ((LoopDevice.with_options { fd := 3 }).set_direct_io_opt true) 7 =
      (Except.error { errno := 95 },
       [Event.ioctl (IoctlReq.setFd 7),
        Event.ioctl (IoctlReq.setStatus64 loop_info64.default),
        Event.ioctl (IoctlReq.directIoToggle 1)]) :=
  ⟨(c6_terminal_operations_delegate env_c6 []
      ((LoopDevice.with_options { fd := 3 }).set_direct_io_opt true) "img" 7
      [Event.ioctl (IoctlReq.setFd 7),
       Event.ioctl (IoctlReq.setStatus64 loop_info64.default)]).1 (by rfl),
   (c6_terminal_operations_delegate env_c6 []
      ((LoopDevice.with_options { fd := 3 }).set_direct_io_opt true) "img" 7
      [Event.ioctl (IoctlReq.setFd 7),
       Event.ioctl (IoctlReq.setStatus64 loop_info64.default)]).2 (by rfl)⟩

/- Bitwise foundation for the u32 flag field: lo_flags is a u32, so its
value is below 2 ^ 32; setting uses a bitwise or with a single-bit
constant and clearing uses a bitwise and with the complement mask. -/

theorem u32max_eq : U32_MAX = 2 ^ 32 - 1 := by decide

theorem testBit_u32max (i : Nat) : Nat.testBit U32_MAX i = decide (i < 32) := by
  rw [u32max_eq]
  exact Nat.testBit_two_pow_sub_one 32 i

theorem mask_testBit (j i : Nat) :
    (U32_MAX ^^^ 2 ^ j).testBit i = (decide (i < 32) ^^ decide (j = i)) := by
  simp [Nat.testBit_xor, testBit_u32max, Nat.testBit_two_pow]

theorem set_idem (x y : Nat) : x ||| y ||| y = x ||| y := by
  simp [Nat.lor_assoc]

theorem clear_idem (x m : Nat) : x &&& m &&& m = x &&& m := by
  simp [Nat.land_assoc]

theorem or_or_comm (x a b : Nat) : x ||| a ||| b = x ||| b ||| a := by
  rw [Nat.lor_assoc, Nat.lor_assoc, Nat.lor_comm a b]

theorem and_and_comm (x a b : Nat) : x &&& a &&& b = x &&& b &&& a := by
  rw [Nat.land_assoc, Nat.land_assoc, Nat.land_comm a b]

theorem set_then_clear (x j : Nat) (hj : j < 32) :
    (x ||| 2 ^ j) &&& (U32_MAX ^^^ 2 ^ j) = x &&& (U32_MAX ^^^ 2 ^ j) := by
  apply Nat.eq_of_testBit_eq
  intro i
  simp only [Nat.testBit_land, Nat.testBit_lor, mask_testBit, Nat.testBit_two_pow]
  by_cases hji : j = i
  · subst hji
    simp [hj]
  · simp [hji]

theorem clear_then_set (x j : Nat) (hx : x < 2 ^ 32) :
    (x &&& (U32_MAX ^^^ 2 ^ j)) ||| 2 ^ j = x ||| 2 ^ j := by
  apply Nat.eq_of_testBit_eq
  intro i
  simp only [Nat.testBit_land, Nat.testBit_lor, mask_testBit, Nat.testBit_two_pow]
  by_cases hji : j = i
  · simp [hji]
  · by_cases hi : i < 32
    · simp [hji, hi]
    · have hzero : x.testBit i = false :=
        Nat.testBit_lt_two_pow
          (lt_of_lt_of_le hx (Nat.pow_le_pow_right (by norm_num) (le_of_not_lt hi)))
      simp [hji, hi, hzero]

theorem set_clear_comm (x j k : Nat) (hj : j < 32) (hkj : k ≠ j) :
    (x ||| 2 ^ j) &&& (U32_MAX ^^^ 2 ^ k) = (x &&& (U32_MAX ^^^ 2 ^ k)) ||| 2 ^ j := by
  apply Nat.eq_of_testBit_eq
  intro i
  simp only [Nat.testBit_land, Nat.testBit_lor, mask_testBit, Nat.testBit_two_pow]
  by_cases hji : j = i
  · subst hji
    simp [hj, hkj]
  · simp [hji]

theorem or_pow_testBit_ne (x j i : Nat) (h : i ≠ j) :
    (x ||| 2 ^ j).testBit i = x.testBit i := by
  simp [Nat.testBit_lor, Nat.testBit_two_pow, Ne.symm h]

theorem and_mask_testBit_ne (x j i : Nat) (hx : x < 2 ^ 32) (h : i ≠ j) :
    (x &&& (U32_MAX ^^^ 2 ^ j)).testBit i = x.testBit i := by
  by_cases hi : i < 32
  · simp [Nat.testBit_land, testBit_u32max, Nat.testBit_two_pow, Ne.symm h, hi]
  · have hzero : x.testBit i = false :=
      Nat.testBit_lt_two_pow
        (lt_of_lt_of_le hx (Nat.pow_le_pow_right (by norm_num) (le_of_not_lt hi)))
    simp [Nat.testBit_land, hzero]

theorem ro_flag_eq : LO_FLAGS_READ_ONLY = 2 ^ 0 := rfl

theorem ac_flag_eq : LO_FLAGS_AUTOCLEAR = 2 ^ 2 := rfl

theorem ps_bit_eq : (1 : Nat) <<< 4 = 2 ^ 4 := by decide

theorem ps_mask_eq : U32_MAX - 1 <<< 4 = U32_MAX ^^^ 2 ^ 4 := by decide

/- Instances of the bit lemmas at the flag constants as they appear in the
setter definitions (the elaborator identifies the constants with their
power-of-two forms). -/

theorem ro_set_clear (x : Nat) :
    (x ||| LO_FLAGS_READ_ONLY) &&& (U32_MAX ^^^ LO_FLAGS_READ_ONLY)
      = x &&& (U32_MAX ^^^ LO_FLAGS_READ_ONLY) :=
  set_then_clear x 0 (by norm_num)

theorem ro_clear_set (x : Nat) (hx : x < 2 ^ 32) :
    (x &&& (U32_MAX ^^^ LO_FLAGS_READ_ONLY)) ||| LO_FLAGS_READ_ONLY
      = x ||| LO_FLAGS_READ_ONLY :=
  clear_then_set x 0 hx

theorem ac_set_clear (x : Nat) :
    (x ||| LO_FLAGS_AUTOCLEAR) &&& (U32_MAX ^^^ LO_FLAGS_AUTOCLEAR)
      = x &&& (U32_MAX ^^^ LO_FLAGS_AUTOCLEAR) :=
  set_then_clear x 2 (by norm_num)

theorem ac_clear_set (x : Nat) (hx : x < 2 ^ 32) :
    (x &&& (U32_MAX ^^^ LO_FLAGS_AUTOCLEAR)) ||| LO_FLAGS_AUTOCLEAR
      = x ||| LO_FLAGS_AUTOCLEAR :=
  clear_then_set x 2 hx

theorem ps_set_clear (x : Nat) :
    (x ||| 16) &&& (U32_MAX - 16) = x &&& (U32_MAX - 16) :=
  set_then_clear x 4 (by norm_num)

theorem ps_clear_set (x : Nat) (hx : x < 2 ^ 32) :
    (x &&& (U32_MAX - 16)) ||| 16 = x ||| 16 :=
  clear_then_set x 4 hx

theorem ro_set_ac_clear (x : Nat) :
    (x ||| LO_FLAGS_READ_ONLY) &&& (U32_MAX ^^^ LO_FLAGS_AUTOCLEAR)
      = (x &&& (U32_MAX ^^^ LO_FLAGS_AUTOCLEAR)) ||| LO_FLAGS_READ_ONLY :=
  set_clear_comm x 0 2 (by norm_num) (by norm_num)

theorem ac_set_ro_clear (x : Nat) :
    (x ||| LO_FLAGS_AUTOCLEAR) &&& (U32_MAX ^^^ LO_FLAGS_READ_ONLY)
      = (x &&& (U32_MAX ^^^ LO_FLAGS_READ_ONLY)) ||| LO_FLAGS_AUTOCLEAR :=
  set_clear_comm x 2 0 (by norm_num) (by norm_num)

theorem ro_set_ps_clear (x : Nat) :
    (x ||| LO_FLAGS_READ_ONLY) &&& (U32_MAX - 16)
      = (x &&& (U32_MAX - 16)) ||| LO_FLAGS_READ_ONLY :=
  set_clear_comm x 0 4 (by norm_num) (by norm_num)

theorem ps_set_ro_clear (x : Nat) :
    (x ||| 16) &&& (U32_MAX ^^^ LO_FLAGS_READ_ONLY)
      = (x &&& (U32_MAX ^^^ LO_FLAGS_READ_ONLY)) ||| 16 :=
  set_clear_comm x 4 0 (by norm_num) (by norm_num)

theorem ac_set_ps_clear (x : Nat) :
    (x ||| LO_FLAGS_AUTOCLEAR) &&& (U32_MAX - 16)
      = (x &&& (U32_MAX - 16)) ||| LO_FLAGS_AUTOCLEAR :=
  set_clear_comm x 2 4 (by norm_num) (by norm_num)

theorem ps_set_ac_clear (x : Nat) :
    (x ||| 16) &&& (U32_MAX ^^^ LO_FLAGS_AUTOCLEAR)
      = (x &&& (U32_MAX ^^^ LO_FLAGS_AUTOCLEAR)) ||| 16 :=
  set_clear_comm x 4 2 (by norm_num) (by norm_num)

/- Record-level algebra of the setters. -/

theorem read_only_last_wins (o : AttachOptions) (h : o.info.lo_flags < 2 ^ 32)
    (a b : Bool) : (o.read_only a).read_only b = o.read_only b := by
  cases a <;> cases b <;>
    simp [AttachOptions.read_only, set_idem, clear_idem, ro_set_clear,
      ro_clear_set _ h]

theorem autoclear_last_wins (o : AttachOptions) (h : o.info.lo_flags < 2 ^ 32)
    (a b : Bool) : (o.autoclear a).autoclear b = o.autoclear b := by
  cases a <;> cases b <;>
    simp [AttachOptions.autoclear, set_idem, clear_idem, ac_set_clear,
      ac_clear_set _ h]

theorem part_scan_last_wins (o : AttachOptions) (h : o.info.lo_flags < 2 ^ 32)
    (a b : Bool) : (o.part_scan a).part_scan b = o.part_scan b := by
  cases a <;> cases b <;>
    simp [AttachOptions.part_scan, set_idem, clear_idem, ps_set_clear,
      ps_clear_set _ h]

theorem read_only_autoclear_comm (o : AttachOptions) (a b : Bool) :
    (o.read_only a).autoclear b = (o.autoclear b).read_only a := by
  cases a <;> cases b <;>
    simp [AttachOptions.read_only, AttachOptions.autoclear, ro_set_ac_clear,
      ac_set_ro_clear, or_or_comm, and_and_comm]

theorem read_only_part_scan_comm (o : AttachOptions) (a b : Bool) :
    (o.read_only a).part_scan b = (o.part_scan b).read_only a := by
  cases a <;> cases b <;>
    simp [AttachOptions.read_only, AttachOptions.part_scan, ro_set_ps_clear,
      ps_set_ro_clear, or_or_comm, and_and_comm]

theorem autoclear_part_scan_comm (o : AttachOptions) (a b : Bool) :
    (o.autoclear a).part_scan b = (o.part_scan b).autoclear a := by
  cases a <;> cases b <;>
    simp [AttachOptions.autoclear, AttachOptions.part_scan, ac_set_ps_clear,
      ps_set_ac_clear, or_or_comm, and_and_comm]

theorem read_only_other_bits (o : AttachOptions) (h : o.info.lo_flags < 2 ^ 32)
    (a : Bool) (i : Nat) (hi : i ≠ 0) :
    ((o.read_only a).info.lo_flags).testBit i = (o.info.lo_flags).testBit i := by
  cases a
  · exact and_mask_testBit_ne _ 0 i h hi
  · exact or_pow_testBit_ne _ 0 i hi

theorem autoclear_other_bits (o : AttachOptions) (h : o.info.lo_flags < 2 ^ 32)
    (a : Bool) (i : Nat) (hi : i ≠ 2) :
    ((o.autoclear a).info.lo_flags).testBit i = (o.info.lo_flags).testBit i := by
  cases a
  · exact and_mask_testBit_ne _ 2 i h hi
  · exact or_pow_testBit_ne _ 2 i hi

theorem part_scan_other_bits (o : AttachOptions) (h : o.info.lo_flags < 2 ^ 32)
    (a : Bool) (i : Nat) (hi : i ≠ 4) :
    ((o.part_scan a).info.lo_flags).testBit i = (o.info.lo_flags).testBit i := by
  cases a
  · exact and_mask_testBit_ne _ 4 i h hi
  · exact or_pow_testBit_ne _ 4 i hi

/-- C10: over builders whose u32 flag field is in range, each setter
touches only its own field or flag bit: repeated applications of one
setter collapse to the last call (and are idempotent for a fixed
argument), any two setters on distinct fields or distinct flag bits
commute, and each flag setter leaves every other bit of lo_flags and the
other status fields unchanged. -/
theorem c10_setters_independent (o : AttachOptions)
    (h : o.info.lo_flags < 2 ^ 32) (n m : Nat) (a b c e : Bool) :
    (o.read_only a).read_only b = o.read_only b
    ∧ (o.read_only a).autoclear b = (o.autoclear b).read_only a
    ∧ (∀ i, i ≠ 4 →
        ((o.part_scan c).info.lo_flags).testBit i = (o.info.lo_flags).testBit i)
    ∧ (o.autoclear a).autoclear b = o.autoclear b
    ∧ (o.part_scan a).part_scan b = o.part_scan b
    ∧ (o.offset n).offset m = o.offset m
    ∧ (o.size_limit n).size_limit m = o.size_limit m
    ∧ (o.set_direct_io_opt a).set_direct_io_opt b = o.set_direct_io_opt b
    ∧ (o.offset n).size_limit m = (o.size_limit m).offset n
    ∧ (o.offset n).read_only a = (o.read_only a).offset n
    ∧ (o.offset n).autoclear b = (o.autoclear b).offset n
    ∧ (o.offset n).part_scan c = (o.part_scan c).offset n
    ∧ (o.offset n).set_direct_io_opt e = (o.set_direct_io_opt e).offset n
    ∧ (o.size_limit m).read_only a = (o.read_only a).size_limit m
    ∧ (o.size_limit m).autoclear b = (o.autoclear b).size_limit m
    ∧ (o.size_limit m).part_scan c = (o.part_scan c).size_limit m
    ∧ (o.size_limit m).set_direct_io_opt e = (o.set_direct_io_opt e).size_limit m
    ∧ (o.read_only a).part_scan c = (o.part_scan c).read_only a
    ∧ (o.autoclear b).part_scan c = (o.part_scan c).autoclear b
    ∧ (o.read_only a).set_direct_io_opt e = (o.set_direct_io_opt e).read_only a
    ∧ (o.autoclear b).set_direct_io_opt e = (o.set_direct_io_opt e).autoclear b
    ∧ (o.part_scan c).set_direct_io_opt e = (o.set_direct_io_opt e).part_scan c
    ∧ (∀ i, i ≠ 0 →
        ((o.read_only a).info.lo_flags).testBit i = (o.info.lo_flags).testBit i)
    ∧ (∀ i, i ≠ 2 →
        ((o.autoclear b).info.lo_flags).testBit i = (o.info.lo_flags).testBit i)
    ∧ (o.read_only a).info.lo_offset = o.info.lo_offset
    ∧ (o.autoclear b).info.lo_sizelimit = o.info.lo_sizelimit
    ∧ (o.part_scan c).info.lo_offset = o.info.lo_offset
    ∧ (o.offset n).info.lo_flags = o.info.lo_flags
    ∧ (o.size_limit m).info.lo_flags = o.info.lo_flags
    ∧ (o.set_direct_io_opt e).info = o.info := by
  refine ⟨read_only_last_wins o h a b, read_only_autoclear_comm o a b,
    part_scan_other_bits o h c, autoclear_last_wins o h a b,
    part_scan_last_wins o h a b, rfl, rfl, rfl, rfl, ?_, ?_, ?_, rfl,
    ?_, ?_, ?_, rfl, read_only_part_scan_comm o a c,
    autoclear_part_scan_comm o b c, ?_, ?_, ?_,
    read_only_other_bits o h a, autoclear_other_bits o h b,
    ?_, ?_, ?_, rfl, rfl, rfl⟩
  · cases a <;> rfl
  · cases b <;> rfl
  · cases c <;> rfl
  · cases a <;> rfl
  · cases b <;> rfl
  · cases c <;> rfl
  · cases a <;> rfl
  · cases b <;> rfl
  · cases c <;> rfl
  · cases a <;> rfl
  · cases b <;> rfl
  · cases c <;> rfl

/-- Witness for C10: on a fresh builder, read_only(true) then
read_only(false) equals read_only(false) alone, read_only and autoclear
commute, and part_scan leaves the LO_FLAGS_PARTSCAN bit position (3)
untouched. -/
theorem c10_setters_independent_witness :
    ((LoopDevice.with_options { fd := 0 }).read_only true).read_only false
      = (LoopDevice.with_options { fd := 0 }).read_only false
    ∧ ((LoopDevice.with_options { fd := 0 }).read_only true).autoclear false
      = ((LoopDevice.with_options { fd := 0 }).autoclear false).read_only true
    ∧ (((LoopDevice.with_options { fd := 0 }).part_scan true).info.lo_flags).testBit 3
      = (((LoopDevice.with_options { fd := 0 }).info.lo_flags)).testBit 3 := by
  have h := c10_setters_independent (LoopDevice.with_options { fd := 0 })
    (by decide) 11 22 true false true false
  exact ⟨h.1, h.2.1, h.2.2.1 3 (by decide)⟩

end Loopdev
